import Mathlib

/-!
Shallow embedding of the 2D rigid-body physics core of `src/main.rs`
(single disc vs. static floor: velocity-Verlet half-step integrator,
analytic sub-step collision solver with restitution, and clamped
Coulomb friction in force and impulse form).

Machine `f32` arithmetic is modelled by exact real arithmetic; the
`NaN` produced by a negative discriminant in `calculate_collision_dt`
is modelled by `Option.none`, and a Rust `assert!` failure (panic) by
an `Option.none` result of the surrounding operation.
-/

namespace Bevy

noncomputable section

/-- The floor height constant `FLOOR_Y` from the source. -/
def FLOOR_Y : ℝ := -360

/-- Planar vector, modelling Bevy's `Vec2`. -/
@[ext]
structure Vec2 where
  x : ℝ
  y : ℝ

instance : Add Vec2 := ⟨fun a b => ⟨a.x + b.x, a.y + b.y⟩⟩

/-- Scalar multiple of a `Vec2` (Rust `k * v`). -/
def Vec2.scale (k : ℝ) (v : Vec2) : Vec2 := ⟨k * v.x, k * v.y⟩

@[simp] theorem Vec2.add_def (a b : Vec2) : a + b = ⟨a.x + b.x, a.y + b.y⟩ := rfl

@[simp] theorem Vec2.scale_def (k : ℝ) (v : Vec2) : Vec2.scale k v = ⟨k * v.x, k * v.y⟩ := rfl

/-- The part of Bevy's `Transform` the core reads and writes: the planar
translation and the accumulated z-rotation angle (`rotate_z` composes
rotations about the z axis, which in 2D adds angles). -/
@[ext]
structure Transform where
  x : ℝ
  y : ℝ
  rot : ℝ

/-- The `PhysObj` component from the source. -/
@[ext]
structure PhysObj where
  mass : ℝ
  vel : Vec2
  acc : Vec2
  acc_prev : Vec2
  moment_of_inertia : ℝ
  angular_vel : ℝ
  angular_acc : ℝ
  angular_acc_prev : ℝ

/-- The `Collider::Ball` variant (the only variant of `Collider`). -/
structure Collider where
  radius : ℝ
  coef_of_restitution : ℝ
  touching_ground : Bool
  kinetic_friction : ℝ
  friction_acc : ℝ
  friction_acc_prev : ℝ

/-- Rust `f32::signum`: `1.0` for positive values and `+0.0`,
`-1.0` for negative values (exact reals have no negative zero). -/
def rustSignum (x : ℝ) : ℝ := if x < 0 then -1 else 1

/-- Rust `f32::copysign m s`: the magnitude of `m` with the sign of `s`
(`s = 0` stands for `+0.0`, whose sign bit is positive). -/
def copysign (m s : ℝ) : ℝ := if s < 0 then -|m| else |m|

/-- Model of `integrate_before`: the half of the velocity-Verlet step that runs
before force accumulation.  `vel += 0.5*acc*dt; position += vel*dt;
acc_prev = acc; acc = 0`, and the same for the angular channel. -/
def integrate_before (dt : ℝ) (t : Transform) (p : PhysObj) : Transform × PhysObj :=
  let dv := Vec2.scale dt (Vec2.scale 0.5 p.acc)
  let vel1 := p.vel + dv
  let dx := Vec2.scale dt vel1
  let dav := 0.5 * p.angular_acc * dt
  let avel1 := p.angular_vel + dav
  let angle := avel1 * dt
  (⟨t.x + dx.x, t.y + dx.y, t.rot + angle⟩,
   { p with
      vel := vel1
      acc_prev := p.acc
      acc := ⟨0, 0⟩
      angular_vel := avel1
      angular_acc_prev := p.angular_acc
      angular_acc := 0 })

/-- Model of `integrate_after`: the half of the step that runs after force
accumulation; `vel += 0.5*acc*dt`, position untouched. -/
def integrate_after (dt : ℝ) (p : PhysObj) : PhysObj :=
  { p with
      vel := p.vel + Vec2.scale dt (Vec2.scale 0.5 p.acc)
      angular_vel := p.angular_vel + 0.5 * p.angular_acc * dt }

/-- Model of `integrate_simple`: constant-acceleration integration over a signed
sub-interval `dt` (negative `dt` rewinds), used by the collision
resolver.  `dv = acc*dt; dx = (vel + 0.5*dv)*dt`, likewise angular. -/
def integrate_simple (dt : ℝ) (t : Transform) (p : PhysObj) : Transform × PhysObj :=
  let dv := Vec2.scale dt p.acc
  let dx := Vec2.scale dt (p.vel + Vec2.scale 0.5 dv)
  let dav := p.angular_acc * dt
  let angle := (p.angular_vel + 0.5 * dav) * dt
  (⟨t.x + dx.x, t.y + dx.y, t.rot + angle⟩,
   { p with
      vel := p.vel + dv
      angular_vel := p.angular_vel + dav })

/-- Model of `calculate_collision_dt(s, v, a)` from the source: `s/v` when
`a == 0`, otherwise `(v - sqrt(v^2 - 2*a*s).copysign(v)) / a`; a
negative discriminant makes the `f32` result `NaN`, modelled `none`. -/
def calculate_collision_dt (s v a : ℝ) : Option ℝ :=
  if a = 0 then some (s / v)
  else if v ^ 2 - 2 * a * s < 0 then none
  else some ((v - copysign (Real.sqrt (v ^ 2 - 2 * a * s)) v) / a)

/-- Model of `apply_friction_impulse` from the source: clamped Coulomb friction
applied directly to the linear and angular velocity. -/
def apply_friction_impulse (p : PhysObj) (radius normal_impulse kinetic_friction
    applied_friction : ℝ) : PhysObj :=
  let relative_speed := p.vel.x + p.angular_vel * radius
  let max_impulse := normal_impulse * kinetic_friction +
    applied_friction * rustSignum relative_speed
  let stopping_impulse := p.moment_of_inertia * |relative_speed| /
    (p.mass * radius ^ 2 + p.moment_of_inertia)
  let impulse := copysign (min max_impulse stopping_impulse) (-relative_speed)
  { p with
      vel := ⟨p.vel.x + impulse, p.vel.y⟩
      angular_vel := p.angular_vel + impulse * p.mass * radius / p.moment_of_inertia }

/-- Model of `apply_friction_force` from the source: clamped Coulomb friction
added to the acceleration accumulators; returns the updated `PhysObj`
together with the new `(friction_acc, friction_acc_prev)` pair. -/
def apply_friction_force (p : PhysObj) (radius normal_force kinetic_friction
    friction_acc friction_acc_prev : ℝ) : PhysObj × ℝ × ℝ :=
  let relative_acceleration := p.acc.x + p.angular_acc * radius
  let max_force := normal_force * kinetic_friction
  let stopping_force := p.moment_of_inertia * |relative_acceleration| /
    (p.mass * radius ^ 2 + p.moment_of_inertia)
  let force := copysign (min max_force stopping_force) (-relative_acceleration)
  ({ p with
      acc := ⟨p.acc.x + force, p.acc.y⟩
      angular_acc := p.angular_acc + force * p.mass * radius / p.moment_of_inertia },
   force, friction_acc)

/-- Relative tangential speed of the contact point,
`vel.x + angular_vel * radius`. -/
def relSpeed (p : PhysObj) (radius : ℝ) : ℝ := p.vel.x + p.angular_vel * radius

/-- Relative tangential acceleration of the contact point,
`acc.x + angular_acc * radius`. -/
def relAcc (p : PhysObj) (radius : ℝ) : ℝ := p.acc.x + p.angular_acc * radius

/-- The common-case bounce branch of `bounce`, up to and including the
restitution update: rewind by `c`, compute the normal impulse
`-vel.y * (1 + restitution)`, apply impulse friction with zero
pre-applied friction, then `vel.y *= -restitution`. -/
def bounceCommonMid (c radius coef_of_restitution kinetic_friction : ℝ)
    (t : Transform) (p : PhysObj) : Transform × PhysObj :=
  let tp1 := integrate_simple (-c) t p
  let normal_impulse := -tp1.2.vel.y * (1 + coef_of_restitution)
  let p2 := apply_friction_impulse tp1.2 radius normal_impulse kinetic_friction 0
  (tp1.1, { p2 with vel := ⟨p2.vel.x, p2.vel.y * -coef_of_restitution⟩ })

/-- The full common-case bounce branch: `bounceCommonMid` followed by
re-advancing by `c` back to the frame boundary. -/
def bounceCore (c radius coef_of_restitution kinetic_friction : ℝ)
    (t : Transform) (p : PhysObj) : Transform × PhysObj :=
  let m := bounceCommonMid c radius coef_of_restitution kinetic_friction t p
  integrate_simple c m.1 m.2

/-- The other-half-of-step branch of `bounce`: rewind to the step
midpoint, recompute the collision time against `acc_prev`, panic
(`none`) if it is `NaN` or negative, swap the linear acceleration with
the previous one, rewind/impulse/restitution/re-advance as in the
common case, swap back, and advance the remaining half step. -/
def bounceEdge (dt radius coef_of_restitution kinetic_friction : ℝ)
    (t : Transform) (p : PhysObj) : Option (Transform × PhysObj × Bool) :=
  let tp1 := integrate_simple (-0.5 * dt) t p
  match calculate_collision_dt ((tp1.1.y - radius) - FLOOR_Y) tp1.2.vel.y
      tp1.2.acc_prev.y with
  | none => none
  | some c2 =>
    if c2 < 0 then none
    else
      let p1s := { tp1.2 with acc := tp1.2.acc_prev, acc_prev := tp1.2.acc }
      let tp2 := integrate_simple (-c2) tp1.1 p1s
      let normal_impulse := -tp2.2.vel.y * (1 + coef_of_restitution)
      let p3 := apply_friction_impulse tp2.2 radius normal_impulse kinetic_friction 0
      let p4 := { p3 with vel := ⟨p3.vel.x, p3.vel.y * -coef_of_restitution⟩ }
      let tp3 := integrate_simple c2 tp2.1 p4
      let p5s := { tp3.2 with acc := tp3.2.acc_prev, acc_prev := tp3.2.acc }
      let tp4 := integrate_simple (0.5 * dt) tp3.1 p5s
      some (tp4.1, tp4.2, false)

/-- Model of `bounce` from the source.  `none` models an `assert!` panic
(negative sub-step collision time, including the `NaN` case of the
second solve); otherwise the returned `Bool` is the function's return
value (whether another bounce should be resolved). -/
def bounce (dt radius coef_of_restitution kinetic_friction : ℝ)
    (t : Transform) (p : PhysObj) : Option (Transform × PhysObj × Bool) :=
  match calculate_collision_dt ((t.y - radius) - FLOOR_Y) p.vel.y p.acc.y with
  | none => bounceEdge dt radius coef_of_restitution kinetic_friction t p
  | some c =>
    if c > 0.5 * dt then bounceEdge dt radius coef_of_restitution kinetic_friction t p
    else if c < 0 then none
    else
      let tp := bounceCore c radius coef_of_restitution kinetic_friction t p
      some (tp.1, tp.2, false)

/-- Model of `resolve_collision` from the source: the resting clamp when
`touching_ground` is already set, otherwise mark `touching_ground`
and bounce.  The `Bool` is the function's return value. -/
def resolve_collision (dt : ℝ) (t : Transform) (p : PhysObj) (c : Collider) :
    Option (Transform × PhysObj × Collider × Bool) :=
  if c.touching_ground then
    some (⟨t.x, FLOOR_Y + c.radius, t.rot⟩, { p with vel := ⟨p.vel.x, 0⟩ }, c, false)
  else
    match bounce dt c.radius c.coef_of_restitution c.kinetic_friction t p with
    | none => none
    | some (t1, p1, b) => some (t1, p1, { c with touching_ground := true }, b)

/-- The `while resolve_collision(..) {}` loop of `collision_system`,
with explicit fuel; fuel exhaustion (a loop that would still be
running) and an `assert!` panic are both `none`. -/
def resolveLoop : ℕ → ℝ → Transform → PhysObj → Collider →
    Option (Transform × PhysObj × Collider)
  | 0, _, _, _, _ => none
  | n + 1, dt, t, p, c =>
    match resolve_collision dt t p c with
    | none => none
    | some (t1, p1, c1, b) =>
      if b then resolveLoop n dt t1 p1 c1 else some (t1, p1, c1)

/-- The per-body behaviour of `collision_system`: run the resolution
loop when the ball penetrates the floor, otherwise clear
`touching_ground`. -/
def collision_system (fuel : ℕ) (dt : ℝ) (t : Transform) (p : PhysObj) (c : Collider) :
    Option (Transform × PhysObj × Collider) :=
  if t.y - c.radius ≤ FLOOR_Y then resolveLoop fuel dt t p c
  else if c.touching_ground then some (t, p, { c with touching_ground := false })
  else some (t, p, c)

/-- Claim C3: for every body state and every `dt`, the before-half
integrator performs exactly `vel += 0.5*acc*dt`, then
`position += vel*dt` with the already-updated velocity, then
`previous_acc = acc`, then `acc = 0`, on both the linear and the
angular channel; in particular both acceleration accumulators are zero
immediately after it runs. -/
theorem c3_integrate_before_spec (dt : ℝ) (t : Transform) (p : PhysObj) :
    (integrate_before dt t p).2.vel =
        ⟨p.vel.x + 0.5 * p.acc.x * dt, p.vel.y + 0.5 * p.acc.y * dt⟩
    ∧ (integrate_before dt t p).1.x = t.x + (integrate_before dt t p).2.vel.x * dt
    ∧ (integrate_before dt t p).1.y = t.y + (integrate_before dt t p).2.vel.y * dt
    ∧ (integrate_before dt t p).2.acc_prev = p.acc
    ∧ (integrate_before dt t p).2.acc = ⟨0, 0⟩
    ∧ (integrate_before dt t p).2.angular_vel = p.angular_vel + 0.5 * p.angular_acc * dt
    ∧ (integrate_before dt t p).1.rot =
        t.rot + (integrate_before dt t p).2.angular_vel * dt
    ∧ (integrate_before dt t p).2.angular_acc_prev = p.angular_acc
    ∧ (integrate_before dt t p).2.angular_acc = 0 := by
  simp only [integrate_before, Vec2.scale_def, Vec2.add_def, Vec2.mk.injEq]
  and_intros <;> ring_nf

/-- Claim C10: for every body state, every time `u`, and fixed
acceleration fields, applying the simple integrator with `-u` and then
with `+u` (the rewind/replay pair used by the collision solver)
restores position, orientation, linear velocity, and angular velocity
exactly, in exact real arithmetic. -/
theorem c10_integrate_simple_rewind_replay (u : ℝ) (t : Transform) (p : PhysObj) :
    integrate_simple u ((integrate_simple (-u) t p).1) ((integrate_simple (-u) t p).2)
      = (t, p) := by
  simp only [integrate_simple, Vec2.scale_def, Vec2.add_def]
  rw [Prod.ext_iff]
  constructor
  · ext <;> dsimp <;> ring_nf
  · ext <;> dsimp <;> ring_nf

/-- Formalisation of the spec's impulse formula (section 4.5): the
applied impulse is `min(J_n*kf + J_prev*sign(rel), stopping_impulse)`
taken with the sign opposite to `rel`. -/
def spec_friction_impulse (p : PhysObj) (radius J kf applied : ℝ) : ℝ :=
  -rustSignum (relSpeed p radius) *
    |min (J * kf + applied * rustSignum (relSpeed p radius))
      (p.moment_of_inertia * |relSpeed p radius| /
        (p.mass * radius ^ 2 + p.moment_of_inertia))|

theorem copysign_neg_of_ne (m rel : ℝ) (h : rel ≠ 0) :
    copysign m (-rel) = -rustSignum rel * |m| := by
  unfold copysign rustSignum
  rcases lt_or_gt_of_ne h with hneg | hpos
  · rw [if_neg (by linarith : ¬-rel < 0), if_pos hneg]
    ring
  · rw [if_pos (by linarith : -rel < 0), if_neg (by linarith : ¬rel < 0)]
    ring

/-- Claim C5: for every call to the impulse friction model with normal
impulse `J` and previously-applied friction impulse `applied`, the
applied impulse equals
`min(J*kf + applied*sign(rel), I*|rel| / (m*radius^2 + I))` with sign
opposite to `rel = vel.x + angular_vel*radius`, and the update is
exactly `vel.x += impulse`, `angular_vel += impulse*m*radius/I`
(stated for nonzero `rel`; the real-valued model has no signed zero). -/
theorem c5_friction_impulse_formula (p : PhysObj) (radius J kf applied : ℝ)
    (h : relSpeed p radius ≠ 0) :
    apply_friction_impulse p radius J kf applied =
      { p with
          vel := ⟨p.vel.x + spec_friction_impulse p radius J kf applied, p.vel.y⟩
          angular_vel := p.angular_vel +
            spec_friction_impulse p radius J kf applied * p.mass * radius /
              p.moment_of_inertia } := by
  have himp :
      copysign
          (min (J * kf + applied * rustSignum (p.vel.x + p.angular_vel * radius))
            (p.moment_of_inertia * |p.vel.x + p.angular_vel * radius| /
              (p.mass * radius ^ 2 + p.moment_of_inertia)))
          (-(p.vel.x + p.angular_vel * radius)) =
        -rustSignum (p.vel.x + p.angular_vel * radius) *
          |min (J * kf + applied * rustSignum (p.vel.x + p.angular_vel * radius))
            (p.moment_of_inertia * |p.vel.x + p.angular_vel * radius| /
              (p.mass * radius ^ 2 + p.moment_of_inertia))| :=
    copysign_neg_of_ne _ _ h
  simp only [apply_friction_impulse, spec_friction_impulse, relSpeed, himp]

/-- Sample body used to witness the friction theorems: unit mass and
inertia, sliding with `vel.x = 1`, not spinning. -/
def sampleBody : PhysObj :=
  { mass := 1, vel := ⟨1, 0⟩, acc := ⟨0, 0⟩, acc_prev := ⟨0, 0⟩,
    moment_of_inertia := 1, angular_vel := 0, angular_acc := 0,
    angular_acc_prev := 0 }

theorem c5_friction_impulse_formula_witness :
    relSpeed sampleBody 1 ≠ 0 ∧
      apply_friction_impulse sampleBody 1 1 1 0 =
        { sampleBody with
            vel := ⟨sampleBody.vel.x + spec_friction_impulse sampleBody 1 1 1 0,
              sampleBody.vel.y⟩
            angular_vel := sampleBody.angular_vel +
              spec_friction_impulse sampleBody 1 1 1 0 * sampleBody.mass * 1 /
                sampleBody.moment_of_inertia } :=
  ⟨by norm_num [relSpeed, sampleBody],
    c5_friction_impulse_formula sampleBody 1 1 1 0
      (by norm_num [relSpeed, sampleBody])⟩

/-- Claim C7: when a body that is already `touching_ground` is found
penetrating the floor, resolution sets `position.y = FLOOR_Y + radius`
and `vel.y = 0` and nothing else: no bounce, no friction impulse;
`vel.x`, the angular velocity, the accelerations and the collider are
untouched, and the function returns `false`. -/
theorem c7_resting_clamp (dt : ℝ) (t : Transform) (p : PhysObj) (c : Collider)
    (htg : c.touching_ground = true) (_hpen : t.y - c.radius ≤ FLOOR_Y) :
    resolve_collision dt t p c =
      some (⟨t.x, FLOOR_Y + c.radius, t.rot⟩, { p with vel := ⟨p.vel.x, 0⟩ }, c,
        false) := by
  simp [resolve_collision, htg]

/-- Sample resting collider used to witness the clamp and loop claims. -/
def restingCollider : Collider :=
  { radius := 25, coef_of_restitution := 0.3, touching_ground := true,
    kinetic_friction := 0.5, friction_acc := 0, friction_acc_prev := 0 }

theorem c7_resting_clamp_witness :
    restingCollider.touching_ground = true ∧
      (⟨0, -340, 0⟩ : Transform).y - restingCollider.radius ≤ FLOOR_Y ∧
      resolve_collision 1 ⟨0, -340, 0⟩ sampleBody restingCollider =
        some (⟨0, FLOOR_Y + restingCollider.radius, 0⟩,
          { sampleBody with vel := ⟨sampleBody.vel.x, 0⟩ }, restingCollider,
          false) :=
  ⟨rfl, by norm_num [restingCollider, FLOOR_Y],
    c7_resting_clamp 1 ⟨0, -340, 0⟩ sampleBody restingCollider rfl
      (by norm_num [restingCollider, FLOOR_Y])⟩

theorem bounceEdge_false {dt radius r kf : ℝ} {t : Transform} {p : PhysObj}
    {res : Transform × PhysObj × Bool}
    (h : bounceEdge dt radius r kf t p = some res) : res.2.2 = false := by
  simp only [bounceEdge] at h
  split at h
  · simp at h
  · split at h
    · simp at h
    · injection h with h2
      subst h2
      rfl

theorem bounce_false {dt radius r kf : ℝ} {t : Transform} {p : PhysObj}
    {res : Transform × PhysObj × Bool}
    (h : bounce dt radius r kf t p = some res) : res.2.2 = false := by
  simp only [bounce] at h
  split at h
  · exact bounceEdge_false h
  · split at h
    · exact bounceEdge_false h
    · split at h
      · simp at h
      · injection h with h2
        subst h2
        rfl

theorem resolve_collision_false {dt : ℝ} {t : Transform} {p : PhysObj} {c : Collider}
    {res : Transform × PhysObj × Collider × Bool}
    (h : resolve_collision dt t p c = some res) : res.2.2.2 = false := by
  unfold resolve_collision at h
  split at h
  · injection h with h2
    subst h2
    rfl
  · split at h
    · simp at h
    · injection h with h2
      subst h2
      exact bounce_false (by assumption)

/-- Claim C9: the collision-resolution loop terminates for every input:
`resolve_collision` always returns `false`, so the `while` loop of
`collision_system` runs its body at most once — with any positive fuel
the loop returns after a single `resolve_collision` call. -/
theorem c9_single_iteration (dt : ℝ) (t : Transform) (p : PhysObj) (c : Collider)
    (res : Transform × PhysObj × Collider × Bool)
    (h : resolve_collision dt t p c = some res) (n : ℕ) :
    res.2.2.2 = false ∧
      resolveLoop (n + 1) dt t p c = some (res.1, res.2.1, res.2.2.1) := by
  obtain ⟨t1, p1, c1, b⟩ := res
  have hb : b = false := resolve_collision_false h
  subst hb
  exact ⟨rfl, by simp [resolveLoop, h]⟩

theorem c9_single_iteration_witness :
    resolve_collision 1 ⟨0, -340, 0⟩ sampleBody restingCollider =
        some (⟨0, FLOOR_Y + restingCollider.radius, 0⟩,
          { sampleBody with vel := ⟨sampleBody.vel.x, 0⟩ }, restingCollider, false) ∧
      (((⟨0, FLOOR_Y + restingCollider.radius, 0⟩,
          { sampleBody with vel := ⟨sampleBody.vel.x, 0⟩ }, restingCollider,
          false) : Transform × PhysObj × Collider × Bool).2.2.2 = false ∧
        resolveLoop 1 1 ⟨0, -340, 0⟩ sampleBody restingCollider =
          some (⟨0, FLOOR_Y + restingCollider.radius, 0⟩,
            { sampleBody with vel := ⟨sampleBody.vel.x, 0⟩ }, restingCollider)) := by
  have h : resolve_collision 1 ⟨0, -340, 0⟩ sampleBody restingCollider =
      some (⟨0, FLOOR_Y + restingCollider.radius, 0⟩,
        { sampleBody with vel := ⟨sampleBody.vel.x, 0⟩ }, restingCollider, false) := by
    simp [resolve_collision, restingCollider]
  exact ⟨h, c9_single_iteration 1 ⟨0, -340, 0⟩ sampleBody restingCollider _ h 0⟩

/-- Claim C6: `calculate_collision_dt` returns exactly `s/v` when
`a = 0`, returns `NaN` (modelled `none`) exactly when `a ≠ 0` and the
discriminant `v^2 - 2*a*s` is negative, and a `NaN` result routes
`bounce` into the other-half-of-step correction branch. -/
theorem c6_collision_dt_nan_routing :
    (∀ s v : ℝ, calculate_collision_dt s v 0 = some (s / v))
    ∧ (∀ s v a : ℝ,
        calculate_collision_dt s v a = none ↔ a ≠ 0 ∧ v ^ 2 - 2 * a * s < 0)
    ∧ (∀ (dt radius r kf : ℝ) (t : Transform) (p : PhysObj),
        calculate_collision_dt ((t.y - radius) - FLOOR_Y) p.vel.y p.acc.y = none →
        bounce dt radius r kf t p = bounceEdge dt radius r kf t p) := by
  refine ⟨fun s v => by simp [calculate_collision_dt], fun s v a => ?_,
    fun dt radius r kf t p h => ?_⟩
  · unfold calculate_collision_dt
    by_cases ha : a = 0
    · simp [ha]
    · by_cases hd : v ^ 2 - 2 * a * s < 0
      · simp [ha, hd]
      · simp [ha, hd]
  · simp only [bounce, h]

/-- Falling body of the demo scene (mass 10, disc inertia for radius
25), one frame after penetrating the floor at high speed. -/
def fallingBody : PhysObj :=
  { mass := 10, vel := ⟨0, -100⟩, acc := ⟨0, -2000⟩, acc_prev := ⟨0, -2000⟩,
    moment_of_inertia := 3125, angular_vel := 0, angular_acc := 0,
    angular_acc_prev := 0 }

theorem c6_collision_dt_nan_routing_witness :
    calculate_collision_dt (((⟨0, -340, 0⟩ : Transform).y - 25) - FLOOR_Y)
        fallingBody.vel.y fallingBody.acc.y = none ∧
      bounce 1 25 0.3 0.5 ⟨0, -340, 0⟩ fallingBody =
        bounceEdge 1 25 0.3 0.5 ⟨0, -340, 0⟩ fallingBody := by
  have h : calculate_collision_dt (((⟨0, -340, 0⟩ : Transform).y - 25) - FLOOR_Y)
      fallingBody.vel.y fallingBody.acc.y = none := by
    norm_num [calculate_collision_dt, fallingBody, FLOOR_Y]
  exact ⟨h, c6_collision_dt_nan_routing.2.2 1 25 0.3 0.5 ⟨0, -340, 0⟩ fallingBody h⟩

theorem sqrt_30000_eq : Real.sqrt 30000 = 100 * Real.sqrt 3 := by
  rw [show (30000 : ℝ) = 100 ^ 2 * 3 by norm_num,
    Real.sqrt_mul (by positivity), Real.sqrt_sq (by norm_num)]

theorem collision_dt_at_5 :
    calculate_collision_dt 5 (-100) (-2000) = some ((1 - Real.sqrt 3) / 20) := by
  unfold calculate_collision_dt
  rw [if_neg (by norm_num : ¬((-2000 : ℝ) = 0)),
    if_neg (by norm_num : ¬((-100 : ℝ) ^ 2 - 2 * (-2000) * 5 < 0))]
  rw [show ((-100 : ℝ) ^ 2 - 2 * (-2000) * 5) = 30000 by norm_num, sqrt_30000_eq]
  unfold copysign
  rw [if_pos (by norm_num : (-100 : ℝ) < 0),
    abs_of_nonneg (by positivity : (0 : ℝ) ≤ 100 * Real.sqrt 3)]
  congr 1
  ring

theorem one_lt_sqrt_three : 1 < Real.sqrt 3 := by
  rw [show (1 : ℝ) = Real.sqrt 1 by simp]
  exact Real.sqrt_lt_sqrt (by norm_num) (by norm_num)

/-- Claim C1 counterexample: on inputs `s = 5, v = -100, a = -2000` the
function returns `(1 - sqrt 3)/20 ≈ -0.0366`, a negative number, so it
does not match the claimed positive root `≈ 0.0366` within any
floating-point tolerance. -/
theorem c1_counterexample :
    calculate_collision_dt 5 (-100) (-2000) = some ((1 - Real.sqrt 3) / 20) ∧
      (1 - Real.sqrt 3) / 20 < 0 := by
  refine ⟨collision_dt_at_5, ?_⟩
  have h := one_lt_sqrt_three
  linarith

/-- Claim C1 as amended: for `s = 5, v = -100, a = -2000` the function
returns the negation of the (unique) positive root of
`s + v*t + 0.5*a*t^2 = 0`: the result is `(1 - sqrt 3)/20 ≈ -0.0366`,
whose negation `(sqrt 3 - 1)/20` is positive, solves the quadratic,
and lies within `10^-5` of `0.0366` — the function computes elapsed
time since the crossing, which is negative when the crossing lies in
the future of the queried instant. -/
theorem c1_amended :
    calculate_collision_dt 5 (-100) (-2000) = some ((1 - Real.sqrt 3) / 20)
    ∧ 0 < (Real.sqrt 3 - 1) / 20
    ∧ 5 + (-100) * ((Real.sqrt 3 - 1) / 20) +
        0.5 * (-2000) * ((Real.sqrt 3 - 1) / 20) ^ 2 = 0
    ∧ 0.0366 < (Real.sqrt 3 - 1) / 20 ∧ (Real.sqrt 3 - 1) / 20 < 0.03661 := by
  have hsq : Real.sqrt 3 ^ 2 = 3 := Real.sq_sqrt (by norm_num)
  have hlo : (1.732 : ℝ) < Real.sqrt 3 := by
    have h := Real.sqrt_lt_sqrt (by positivity : (0 : ℝ) ≤ 1.732 ^ 2)
      (by norm_num : (1.732 : ℝ) ^ 2 < 3)
    rwa [Real.sqrt_sq (by norm_num)] at h
  have hhi : Real.sqrt 3 < 1.7321 := by
    have h := Real.sqrt_lt_sqrt (by norm_num : (0 : ℝ) ≤ 3)
      (by norm_num : (3 : ℝ) < 1.7321 ^ 2)
    rwa [Real.sqrt_sq (by norm_num)] at h
  refine ⟨collision_dt_at_5, by linarith, by linear_combination (-(5 : ℝ) / 2) * hsq,
    by linarith, by linarith⟩

/-- Claim C8: a negative computed sub-step collision time makes the
step abort loudly (the `assert!` fails, modelled by a `none` result)
instead of clamping or proceeding: in the common-case branch when
`collision_dt < 0`, and in the other-half-of-step branch when
`collision_dt2` is negative (or `NaN`, on which `assert!` also fails). -/
theorem c8_negative_collision_dt_aborts (dt radius r kf : ℝ) (t : Transform)
    (p : PhysObj) :
    (∀ c : ℝ,
      calculate_collision_dt ((t.y - radius) - FLOOR_Y) p.vel.y p.acc.y = some c →
      ¬c > 0.5 * dt → c < 0 → bounce dt radius r kf t p = none)
    ∧ ((calculate_collision_dt ((t.y - radius) - FLOOR_Y) p.vel.y p.acc.y = none ∨
        (∃ c, calculate_collision_dt ((t.y - radius) - FLOOR_Y) p.vel.y p.acc.y =
            some c ∧ c > 0.5 * dt)) →
      (calculate_collision_dt
            (((integrate_simple (-0.5 * dt) t p).1.y - radius) - FLOOR_Y)
            (integrate_simple (-0.5 * dt) t p).2.vel.y
            (integrate_simple (-0.5 * dt) t p).2.acc_prev.y = none ∨
        (∃ c2, calculate_collision_dt
            (((integrate_simple (-0.5 * dt) t p).1.y - radius) - FLOOR_Y)
            (integrate_simple (-0.5 * dt) t p).2.vel.y
            (integrate_simple (-0.5 * dt) t p).2.acc_prev.y = some c2 ∧ c2 < 0)) →
      bounce dt radius r kf t p = none) := by
  constructor
  · intro c hc hle hneg
    simp only [bounce, hc]
    rw [if_neg hle, if_pos hneg]
  · intro hroute habort
    have hedge : bounce dt radius r kf t p = bounceEdge dt radius r kf t p := by
      rcases hroute with h | ⟨c, hc, hgt⟩
      · simp only [bounce, h]
      · simp only [bounce, hc]
        rw [if_pos hgt]
    rw [hedge]
    rcases habort with h2 | ⟨c2, hc2, hneg⟩
    · simp only [bounceEdge, h2]
    · simp only [bounceEdge, hc2]
      rw [if_pos hneg]

/-- Falling body with zero current acceleration (gravity detached):
with `a = 0` the collision-time solve degenerates to `s/v`. -/
def glidingBody : PhysObj :=
  { mass := 10, vel := ⟨0, -100⟩, acc := ⟨0, 0⟩, acc_prev := ⟨0, 0⟩,
    moment_of_inertia := 3125, angular_vel := 0, angular_acc := 0,
    angular_acc_prev := 0 }

/-- Falling body whose previous-step acceleration was zero, used to
drive the other-half-of-step branch into a rational negative
`collision_dt2`. -/
def plungingBody : PhysObj :=
  { mass := 10, vel := ⟨0, -100⟩, acc := ⟨0, -2000⟩, acc_prev := ⟨0, 0⟩,
    moment_of_inertia := 3125, angular_vel := 0, angular_acc := 0,
    angular_acc_prev := 0 }

theorem c8_negative_collision_dt_aborts_witness :
    (calculate_collision_dt (((⟨0, -330, 0⟩ : Transform).y - 25) - FLOOR_Y)
        glidingBody.vel.y glidingBody.acc.y = some (-(1 / 20)) ∧
      ¬(-(1 / 20) : ℝ) > 0.5 * 1 ∧ (-(1 / 20) : ℝ) < 0 ∧
      bounce 1 25 0.3 0.5 ⟨0, -330, 0⟩ glidingBody = none)
    ∧ (calculate_collision_dt (((⟨0, -340, 0⟩ : Transform).y - 25) - FLOOR_Y)
        plungingBody.vel.y plungingBody.acc.y = none ∧
      calculate_collision_dt
          (((integrate_simple (-0.5 * 1) ⟨0, -340, 0⟩ plungingBody).1.y - 25) -
            FLOOR_Y)
          (integrate_simple (-0.5 * 1) ⟨0, -340, 0⟩ plungingBody).2.vel.y
          (integrate_simple (-0.5 * 1) ⟨0, -340, 0⟩ plungingBody).2.acc_prev.y =
        some (-(41 / 180)) ∧
      bounce 1 25 0.3 0.5 ⟨0, -340, 0⟩ plungingBody = none) := by
  have h1 : calculate_collision_dt (((⟨0, -330, 0⟩ : Transform).y - 25) - FLOOR_Y)
      glidingBody.vel.y glidingBody.acc.y = some (-(1 / 20)) := by
    norm_num [calculate_collision_dt, glidingBody, FLOOR_Y]
  have h2 : calculate_collision_dt (((⟨0, -340, 0⟩ : Transform).y - 25) - FLOOR_Y)
      plungingBody.vel.y plungingBody.acc.y = none := by
    norm_num [calculate_collision_dt, plungingBody, FLOOR_Y]
  have h3 : calculate_collision_dt
      (((integrate_simple (-0.5 * 1) ⟨0, -340, 0⟩ plungingBody).1.y - 25) - FLOOR_Y)
      (integrate_simple (-0.5 * 1) ⟨0, -340, 0⟩ plungingBody).2.vel.y
      (integrate_simple (-0.5 * 1) ⟨0, -340, 0⟩ plungingBody).2.acc_prev.y =
      some (-(41 / 180)) := by
    norm_num [calculate_collision_dt, integrate_simple, plungingBody, FLOOR_Y]
  refine ⟨⟨h1, by norm_num, by norm_num, ?_⟩, ⟨h2, h3, ?_⟩⟩
  · exact (c8_negative_collision_dt_aborts 1 25 0.3 0.5 ⟨0, -330, 0⟩ glidingBody).1
      (-(1 / 20)) h1 (by norm_num) (by norm_num)
  · exact (c8_negative_collision_dt_aborts 1 25 0.3 0.5 ⟨0, -340, 0⟩ plungingBody).2
      (Or.inl h2) (Or.inr ⟨-(41 / 180), h3, by norm_num⟩)

/-- Claim C2: in the common-case bounce branch the solver rewinds by
`collision_dt`, applies the normal impulse and friction, scales and
negates `vel.y` by the restitution, and re-advances; for any impact
with incoming vertical speed `v_in` at the rewound contact instant and
no friction, the vertical speed immediately after restitution is
`restitution * |v_in|`, signed opposite to `v_in`. -/
theorem c2_common_bounce_restitution (dt radius r kf : ℝ) (t : Transform)
    (p : PhysObj) (c : ℝ)
    (hc : calculate_collision_dt ((t.y - radius) - FLOOR_Y) p.vel.y p.acc.y = some c)
    (hle : ¬c > 0.5 * dt) (hnn : 0 ≤ c) (_hkf : kf = 0) (hr : 0 < r)
    (hvin : (integrate_simple (-c) t p).2.vel.y ≠ 0) :
    bounce dt radius r kf t p =
        some ((bounceCore c radius r kf t p).1, (bounceCore c radius r kf t p).2,
          false)
    ∧ (bounceCommonMid c radius r kf t p).2.vel.y =
        -(r * (integrate_simple (-c) t p).2.vel.y)
    ∧ |(bounceCommonMid c radius r kf t p).2.vel.y| =
        r * |(integrate_simple (-c) t p).2.vel.y|
    ∧ (bounceCommonMid c radius r kf t p).2.vel.y *
        (integrate_simple (-c) t p).2.vel.y < 0 := by
  have hmid : (bounceCommonMid c radius r kf t p).2.vel.y =
      -(r * (integrate_simple (-c) t p).2.vel.y) := by
    simp only [bounceCommonMid, apply_friction_impulse]
    ring
  refine ⟨?_, hmid, ?_, ?_⟩
  · simp only [bounce, hc]
    rw [if_neg hle, if_neg (not_lt.mpr hnn)]
  · rw [hmid, abs_neg, abs_mul, abs_of_pos hr]
  · rw [hmid]
    rcases lt_or_gt_of_ne hvin with hv | hv
    · nlinarith [mul_pos hr (mul_pos_of_neg_of_neg hv hv)]
    · nlinarith [mul_pos hr (mul_pos hv hv)]

theorem c2_common_bounce_restitution_witness :
    calculate_collision_dt (((⟨0, -336, 0⟩ : Transform).y - 25) - FLOOR_Y)
        glidingBody.vel.y glidingBody.acc.y = some (1 / 100)
    ∧ ¬(1 / 100 : ℝ) > 0.5 * 1 ∧ (0 : ℝ) ≤ 1 / 100 ∧ (0 : ℝ) < 0.3
    ∧ (integrate_simple (-(1 / 100)) ⟨0, -336, 0⟩ glidingBody).2.vel.y ≠ 0
    ∧ (bounce 1 25 0.3 0 ⟨0, -336, 0⟩ glidingBody =
        some ((bounceCore (1 / 100) 25 0.3 0 ⟨0, -336, 0⟩ glidingBody).1,
          (bounceCore (1 / 100) 25 0.3 0 ⟨0, -336, 0⟩ glidingBody).2, false)
      ∧ (bounceCommonMid (1 / 100) 25 0.3 0 ⟨0, -336, 0⟩ glidingBody).2.vel.y =
          -(0.3 * (integrate_simple (-(1 / 100)) ⟨0, -336, 0⟩ glidingBody).2.vel.y)
      ∧ |(bounceCommonMid (1 / 100) 25 0.3 0 ⟨0, -336, 0⟩ glidingBody).2.vel.y| =
          0.3 * |(integrate_simple (-(1 / 100)) ⟨0, -336, 0⟩ glidingBody).2.vel.y|
      ∧ (bounceCommonMid (1 / 100) 25 0.3 0 ⟨0, -336, 0⟩ glidingBody).2.vel.y *
          (integrate_simple (-(1 / 100)) ⟨0, -336, 0⟩ glidingBody).2.vel.y < 0) := by
  have hc : calculate_collision_dt (((⟨0, -336, 0⟩ : Transform).y - 25) - FLOOR_Y)
      glidingBody.vel.y glidingBody.acc.y = some (1 / 100) := by
    norm_num [calculate_collision_dt, glidingBody, FLOOR_Y]
  have hvin : (integrate_simple (-(1 / 100)) ⟨0, -336, 0⟩ glidingBody).2.vel.y ≠ 0 := by
    norm_num [integrate_simple, glidingBody]
  exact ⟨hc, by norm_num, by norm_num, by norm_num, hvin,
    c2_common_bounce_restitution 1 25 0.3 0 ⟨0, -336, 0⟩ glidingBody (1 / 100) hc
      (by norm_num) (by norm_num) rfl (by norm_num) hvin⟩

/-- The clamp structure shared by the friction force and impulse: with
a nonnegative Coulomb cap, the applied correction `j = copysign(min cap
(I*|rel|/D)) (-rel)` scaled by `D/I` moves `rel` toward zero without
crossing it. -/
theorem clamp_no_overshoot (rel cap D I : ℝ) (hD : 0 < D) (hI : 0 < I)
    (hcap : 0 ≤ cap) :
    0 ≤ (rel + copysign (min cap (I * |rel| / D)) (-rel) * D / I) * rel ∧
      |rel + copysign (min cap (I * |rel| / D)) (-rel) * D / I| ≤ |rel| := by
  have hs : 0 ≤ I * |rel| / D := by positivity
  set x := min cap (I * |rel| / D) with hxdef
  have hx0 : 0 ≤ x := le_min hcap hs
  have hxI : x * D / I ≤ |rel| := by
    rw [div_le_iff₀ hI, mul_comm |rel| I]
    exact (le_div_iff₀ hD).mp (min_le_right _ _)
  have hxI0 : 0 ≤ x * D / I := div_nonneg (mul_nonneg hx0 hD.le) hI.le
  unfold copysign
  rcases lt_or_le 0 rel with hrel | hrel
  · rw [if_pos (by linarith : -rel < 0), abs_of_nonneg hx0]
    rw [abs_of_pos hrel] at hxI
    have key : rel + -x * D / I = rel - x * D / I := by ring
    rw [key]
    refine ⟨mul_nonneg (by linarith) hrel.le, ?_⟩
    rw [abs_of_nonneg (by linarith), abs_of_pos hrel]
    linarith
  · rw [if_neg (by linarith : ¬-rel < 0), abs_of_nonneg hx0]
    rw [abs_of_nonpos hrel] at hxI
    refine ⟨?_, ?_⟩
    · have hsum : rel + x * D / I ≤ 0 := by linarith
      nlinarith [mul_nonneg (neg_nonneg.mpr hsum) (neg_nonneg.mpr hrel)]
    · rw [abs_of_nonpos (by linarith), abs_of_nonpos hrel]
      linarith

/-- Claim C4: under valid parameters and a nonnegative effective
Coulomb cap, the friction impulse never reverses the sign of the
relative tangential speed and never increases its magnitude; the
friction force leaves the velocities untouched and clamps the relative
tangential acceleration the same way, so friction cannot itself
reverse the slip. -/
theorem c4_friction_never_overshoots :
    (∀ (p : PhysObj) (radius J kf applied : ℝ),
      0 < p.mass → 0 < radius → 0 < p.moment_of_inertia → 0 ≤ kf → 0 ≤ J →
      relSpeed p radius ≠ 0 →
      0 ≤ J * kf + applied * rustSignum (relSpeed p radius) →
      0 ≤ relSpeed (apply_friction_impulse p radius J kf applied) radius *
          relSpeed p radius ∧
        |relSpeed (apply_friction_impulse p radius J kf applied) radius| ≤
          |relSpeed p radius|)
    ∧ (∀ (p : PhysObj) (radius nf kf fa fap : ℝ),
      0 < p.mass → 0 < radius → 0 < p.moment_of_inertia → 0 ≤ kf → 0 ≤ nf →
      ((apply_friction_force p radius nf kf fa fap).1.vel = p.vel ∧
        (apply_friction_force p radius nf kf fa fap).1.angular_vel = p.angular_vel)
      ∧ 0 ≤ relAcc (apply_friction_force p radius nf kf fa fap).1 radius *
          relAcc p radius
      ∧ |relAcc (apply_friction_force p radius nf kf fa fap).1 radius| ≤
          |relAcc p radius|) := by
  constructor
  · intro p radius J kf applied hm hr hI hkf hJ hrel hcap
    have hD : 0 < p.mass * radius ^ 2 + p.moment_of_inertia := by positivity
    have key := clamp_no_overshoot (relSpeed p radius)
      (J * kf + applied * rustSignum (relSpeed p radius))
      (p.mass * radius ^ 2 + p.moment_of_inertia) p.moment_of_inertia hD hI hcap
    have heq : relSpeed (apply_friction_impulse p radius J kf applied) radius =
        relSpeed p radius +
          copysign
              (min (J * kf + applied * rustSignum (relSpeed p radius))
                (p.moment_of_inertia * |relSpeed p radius| /
                  (p.mass * radius ^ 2 + p.moment_of_inertia)))
              (-relSpeed p radius) *
            (p.mass * radius ^ 2 + p.moment_of_inertia) / p.moment_of_inertia := by
      simp only [apply_friction_impulse, relSpeed]
      field_simp
      ring
    rw [heq]
    exact key
  · intro p radius nf kf fa fap hm hr hI hkf hnf
    have hD : 0 < p.mass * radius ^ 2 + p.moment_of_inertia := by positivity
    have key := clamp_no_overshoot (relAcc p radius) (nf * kf)
      (p.mass * radius ^ 2 + p.moment_of_inertia) p.moment_of_inertia hD hI
      (mul_nonneg hnf hkf)
    have heq : relAcc (apply_friction_force p radius nf kf fa fap).1 radius =
        relAcc p radius +
          copysign
              (min (nf * kf)
                (p.moment_of_inertia * |relAcc p radius| /
                  (p.mass * radius ^ 2 + p.moment_of_inertia)))
              (-relAcc p radius) *
            (p.mass * radius ^ 2 + p.moment_of_inertia) / p.moment_of_inertia := by
      simp only [apply_friction_force, relAcc]
      field_simp
      ring
    exact ⟨⟨rfl, rfl⟩, heq ▸ key⟩

/-- Claim C4 counterexample: with the claim's stated hypotheses alone
(mass, radius, inertia positive, `kf ≥ 0`, normal impulse `≥ 0`,
nonzero relative speed) the friction impulse CAN reverse the sign of
the relative tangential speed: with `J_n = 0`, `kf = 0` and
pre-applied friction `-1` on a unit body slipping at `rel = 1`, the
relative speed after the impulse is `-1`. -/
theorem c4_counterexample :
    0 < sampleBody.mass ∧ 0 < sampleBody.moment_of_inertia ∧
      relSpeed sampleBody 1 = 1 ∧
      relSpeed (apply_friction_impulse sampleBody 1 0 0 (-1)) 1 = -1 := by
  refine ⟨by norm_num [sampleBody], by norm_num [sampleBody],
    by norm_num [relSpeed, sampleBody], ?_⟩
  norm_num [relSpeed, apply_friction_impulse, sampleBody, rustSignum, copysign,
    min_def]

theorem c4_friction_never_overshoots_witness :
    (0 < sampleBody.mass ∧ (0 : ℝ) < 1 ∧ 0 < sampleBody.moment_of_inertia ∧
      (0 : ℝ) ≤ 1 ∧ (0 : ℝ) ≤ 1 ∧ relSpeed sampleBody 1 ≠ 0 ∧
      (0 : ℝ) ≤ 1 * 1 + 0 * rustSignum (relSpeed sampleBody 1) ∧
      (0 ≤ relSpeed (apply_friction_impulse sampleBody 1 1 1 0) 1 *
          relSpeed sampleBody 1 ∧
        |relSpeed (apply_friction_impulse sampleBody 1 1 1 0) 1| ≤
          |relSpeed sampleBody 1|))
    ∧ (((apply_friction_force sampleBody 1 1 1 0 0).1.vel = sampleBody.vel ∧
        (apply_friction_force sampleBody 1 1 1 0 0).1.angular_vel =
          sampleBody.angular_vel)
      ∧ 0 ≤ relAcc (apply_friction_force sampleBody 1 1 1 0 0).1 1 *
          relAcc sampleBody 1
      ∧ |relAcc (apply_friction_force sampleBody 1 1 1 0 0).1 1| ≤
          |relAcc sampleBody 1|) := by
  refine ⟨⟨by norm_num [sampleBody], by norm_num, by norm_num [sampleBody],
    by norm_num, by norm_num, by norm_num [relSpeed, sampleBody],
    by norm_num [relSpeed, sampleBody, rustSignum], ?_⟩, ?_⟩
  · exact c4_friction_never_overshoots.1 sampleBody 1 1 1 0
      (by norm_num [sampleBody]) (by norm_num) (by norm_num [sampleBody])
      (by norm_num) (by norm_num) (by norm_num [relSpeed, sampleBody])
      (by norm_num [relSpeed, sampleBody, rustSignum])
  · exact c4_friction_never_overshoots.2 sampleBody 1 1 1 0 0
      (by norm_num [sampleBody]) (by norm_num) (by norm_num [sampleBody])
      (by norm_num) (by norm_num)

end

end Bevy
